import Mathlib

/-!
Shallow embedding of `cozorocks/bridge/db.h`, the C++ bridge between the Cozo
host process and the RocksDB storage engine.  The engine itself is an external
collaborator: its calls are modelled as events carrying the result the engine
would return (supplied as an explicit oracle argument), and each bridge
operation is embedded as a pure function from its arguments and the oracle
results to the trace of engine calls it performs, the final value of its
status out-parameter, and its return value.

Unchecked C++ `vector::operator[]` indexing is modelled with `List.getElem?`:
a `none` result marks an out-of-bounds access (undefined behaviour in the
source), distinct from any status the bridge could return.
-/

set_option autoImplicit false

/-- Engine status code (the subset of RocksDB codes relevant to the bridge). -/
inductive StatusCode where
  | ok
  | notFound
  | corruption
  | invalidArgument
  | ioError
  | busy
deriving DecidableEq, Repr

/-- Engine-native `rocksdb::Status`: a code plus a diagnostic message. -/
structure Status where
  code : StatusCode
  msg : String
deriving DecidableEq, Repr

/-- `rocksdb::Status::ok()`. -/
def Status.isOk (s : Status) : Bool := s.code == StatusCode.ok

/-- Modelled from the spec: `RocksDbStatus` lives in `common.h`, which is not
under `src/`; per the Status Adapter contract it is "an enumerated code plus
optional human-readable message" visible to the caller. -/
structure RocksDbStatus where
  code : StatusCode
  message : String
deriving DecidableEq, Repr

/-! The token write-status appears with an underscore in the C++ source; Lean
accepts the same name. -/

/-- Modelled from the spec: `write_status` lives in `common.h`, which is not
under `src/`; per the Status Adapter contract it "takes an engine operation
result and writes it into a caller-visible status output parameter", an
idempotent translation that never throws.  Here it is the function computing
the value written into the out-parameter. -/
def write_status (s : Status) : RocksDbStatus := ⟨s.code, s.msg⟩

/-- Host-side byte buffer (`RustBytes`), as the sequence of its bytes. -/
abbrev Bytes := List Nat

/-- Modelled from the spec: `convert_slice` lives in `slice.h`, which is not
under `src/`; per the Slice Adapter contract it is a zero-copy conversion of a
host byte view into an engine-native view "referencing the same memory", hence
the same byte sequence. -/
def convert_slice (b : Bytes) : Bytes := b

/-- Modelled from the spec: `convert_slice_back` lives in `slice.h`, which is
not under `src/`; the reverse zero-copy conversion, again referencing the same
bytes. -/
def convert_slice_back (b : Bytes) : Bytes := b

/-- Opaque engine column-family handle (`ColumnFamilyHandle *`), as an id. -/
abbrev ColumnFamilyHandle := Nat

/-- Opaque per-column-family engine `Options` record, as an id: the bridge
never inspects it, only passes it along. -/
structure Options where
  id : Nat
deriving DecidableEq, Repr

/-- `EnvOptions`: the bridge only ever default-constructs it. -/
inductive EnvOptions where
  | default
deriving DecidableEq, Repr

/-- `IngestExternalFileOptions`: the bridge only ever default-constructs it. -/
inductive IngestExternalFileOptions where
  | default
deriving DecidableEq, Repr

/-- `WriteOptions`: the bridge only ever default-constructs it. -/
inductive WriteOptions where
  | default
deriving DecidableEq, Repr

/-- `CompactRangeOptions`: the bridge only ever default-constructs it. -/
inductive CompactRangeOptions where
  | default
deriving DecidableEq, Repr

/-- `TransactionDBWriteOptimizations`, default-initialised with both flags
false as in RocksDB. -/
structure TransactionDBWriteOptimizations where
  skip_concurrency_control : Bool := false
  skip_duplicate_key_check : Bool := false
deriving DecidableEq, Repr

/-- A mutation recorded in a `WriteBatch`.  The bridge only ever issues
`DeleteRange`. -/
inductive BatchOp where
  | deleteRange (cf : ColumnFamilyHandle) (start stop : Bytes)
deriving DecidableEq, Repr

/-- `WriteBatch`: the sequence of mutations it holds. -/
abbrev WriteBatch := List BatchOp

/-- Which database object an engine call is made on: the base `DB *` obtained
via `GetBaseDB()`, or the owning `TransactionDB` directly. -/
inductive DbRef where
  | baseDb
  | txnDb
deriving DecidableEq, Repr

/-- An argument string together with whether the source passes it with
`std::move` (true: the local string is consumed, not copied). -/
structure PathArg where
  path : String
  moved : Bool
deriving DecidableEq, Repr

/-- The engine calls the bridge makes, with the arguments it passes. -/
inductive EngineCall where
  | getOptions (d : DbRef) (cf : ColumnFamilyHandle)
  | sstOpen (path : String)
  | sstPut (key val : Bytes)
  | sstFinish
  | ingestExternalFile (d : DbRef) (cf : ColumnFamilyHandle)
      (paths : List PathArg) (opts : IngestExternalFileOptions)
  | batchDeleteRange (cf : ColumnFamilyHandle) (start stop : Bytes)
  | dbWrite (d : DbRef) (w : WriteOptions) (o : TransactionDBWriteOptimizations)
      (batch : WriteBatch)
  | compactRange (d : DbRef) (o : CompactRangeOptions) (cf : ColumnFamilyHandle)
      (start stop : Bytes)
deriving DecidableEq, Repr

/-- One engine call as it happens during a bridge operation: the call, the
status the engine returned for it (`none` for calls that do not return a
status, such as `GetOptions`), and how many times the bridge passes that
result to `write_status`. -/
structure EngineEvent where
  call : EngineCall
  result : Option Status
  routedWrites : Nat
deriving DecidableEq, Repr

/-- The observable effect of one bridge operation: the engine calls it makes
in order, the final value of its `RocksDbStatus &` out-parameter, and its
return value. -/
structure OpTrace (α : Type) where
  events : List EngineEvent
  outStatus : RocksDbStatus
  ret : α
deriving DecidableEq, Repr

/-- `SstFileWriterBridge`: wraps an `SstFileWriter inner` constructed from
`(EnvOptions, Options)`. -/
structure SstFileWriterBridge where
  eopts : EnvOptions
  opts : Options
deriving DecidableEq, Repr

/-- `SstFileWriterBridge::put`: `write_status(inner.Put(convert_slice(key),
convert_slice(val)), status)`. -/
def SstFileWriterBridge.put (_w : SstFileWriterBridge) (key val : Bytes)
    (putResult : Status) : OpTrace Unit :=
  { events := [⟨.sstPut (convert_slice key) (convert_slice val), some putResult, 1⟩]
    outStatus := write_status putResult
    ret := () }

/-- `SstFileWriterBridge::finish`: `write_status(inner.Finish(), status)`. -/
def SstFileWriterBridge.finish (_w : SstFileWriterBridge)
    (finishResult : Status) : OpTrace Unit :=
  { events := [⟨.sstFinish, some finishResult, 1⟩]
    outStatus := write_status finishResult
    ret := () }

/-- `SnapshotBridge`: a raw snapshot pointer plus a non-owning back-reference
to the `DB` that created it, both modelled as opaque ids. -/
structure SnapshotBridge where
  snapshot : Nat
  db : Nat
deriving DecidableEq, Repr

/-- A `db->ReleaseSnapshot(snapshot)` call issued on destruction. -/
structure ReleaseCall where
  db : Nat
  snapshot : Nat
deriving DecidableEq, Repr

/-- `SnapshotBridge::~SnapshotBridge`: the release calls the destructor body
issues, in order.  The body is the single call
`db->ReleaseSnapshot(snapshot)`. -/
def SnapshotBridge.destructor (sb : SnapshotBridge) : List ReleaseCall :=
  [⟨sb.db, sb.snapshot⟩]

/-- `RocksDbBridge`: the fields the embedded operations read.  The two
comparator members and the `TransactionDB` pointer are opaque to the modelled
operations; the column-family handle vector and the path are kept. -/
structure RocksDbBridge where
  cf_handles : List ColumnFamilyHandle
  db_path : String
  destroy_on_exit : Bool
deriving DecidableEq, Repr

/-- `RocksDbBridge::get_db_path`. -/
def RocksDbBridge.get_db_path (b : RocksDbBridge) : String := b.db_path

/-- `RocksDbBridge::get_sst_writer`.  `getOpts` is the oracle for
`get_base_db()->GetOptions(cf)` (the live options per column family);
`openResult` is the engine result of `inner.Open(path_)`.  A `none` overall
result marks the out-of-bounds `cf_handles[idx]` access. -/
def RocksDbBridge.get_sst_writer (b : RocksDbBridge) (path : String) (idx : Nat)
    (getOpts : ColumnFamilyHandle → Options) (openResult : Status) :
    Option (OpTrace SstFileWriterBridge) :=
  match b.cf_handles[idx]? with
  | none => none
  | some cf =>
    let options_ : Options := getOpts cf
    let sst_file_writer : SstFileWriterBridge := ⟨EnvOptions.default, options_⟩
    some
      { events := [⟨.getOptions .baseDb cf, none, 0⟩,
                   ⟨.sstOpen path, some openResult, 1⟩]
        outStatus := write_status openResult
        ret := sst_file_writer }

/-- `RocksDbBridge::ingest_sst`.  `ingestResult` is the engine result of
`get_base_db()->IngestExternalFile(cf, {std::move(path_)}, ifo)` with `ifo`
default-constructed; the path argument is recorded as moved. -/
def RocksDbBridge.ingest_sst (b : RocksDbBridge) (path : String) (idx : Nat)
    (ingestResult : Status) : Option (OpTrace Unit) :=
  match b.cf_handles[idx]? with
  | none => none
  | some cf =>
    some
      { events := [⟨.ingestExternalFile .baseDb cf [⟨path, true⟩]
                     IngestExternalFileOptions.default, some ingestResult, 1⟩]
        outStatus := write_status ingestResult
        ret := () }

/-- `RocksDbBridge::del_range`.  `deleteRangeResult` is the engine result of
`batch.DeleteRange(cf, convert_slice(start), convert_slice(end))`;
`writeResult` the result of `db->Write(w_opts, optimizations, &batch)`.  If
the batch construction fails, its status is written and the operation returns
before any `Write`. -/
def RocksDbBridge.del_range (b : RocksDbBridge) (start stop : Bytes) (idx : Nat)
    (deleteRangeResult writeResult : Status) : Option (OpTrace Unit) :=
  match b.cf_handles[idx]? with
  | none => none
  | some cf =>
    let s := deleteRangeResult
    if !s.isOk then
      some
        { events := [⟨.batchDeleteRange cf (convert_slice start)
                       (convert_slice stop), some s, 1⟩]
          outStatus := write_status s
          ret := () }
    else
      let batch : WriteBatch :=
        [.deleteRange cf (convert_slice start) (convert_slice stop)]
      let w_opts : WriteOptions := .default
      let optimizations : TransactionDBWriteOptimizations :=
        { skip_concurrency_control := true, skip_duplicate_key_check := true }
      let s2 := writeResult
      some
        { events := [⟨.batchDeleteRange cf (convert_slice start)
                       (convert_slice stop), some s, 0⟩,
                     ⟨.dbWrite .txnDb w_opts optimizations batch, some s2, 1⟩]
          outStatus := write_status s2
          ret := () }

/-- `RocksDbBridge::compact_range`: `db->CompactRange(options, cf, &start_s,
&end_s)` with default-constructed `CompactRangeOptions`. -/
def RocksDbBridge.compact_range (b : RocksDbBridge) (start stop : Bytes)
    (idx : Nat) (compactResult : Status) : Option (OpTrace Unit) :=
  match b.cf_handles[idx]? with
  | none => none
  | some cf =>
    some
      { events := [⟨.compactRange .txnDb CompactRangeOptions.default cf
                     (convert_slice start) (convert_slice stop),
                    some compactResult, 1⟩]
        outStatus := write_status compactResult
        ret := () }

/-- The comparison callback handed across the FFI boundary
(`RustComparatorFn`): two byte views to a signed byte, modelled as an integer
in `[-128, 127]`. -/
abbrev RustComparatorFn := Bytes → Bytes → Int

/-- `RustComparator`: name, external comparison callback, and the
`can_different_bytes_be_equal` flag. -/
structure RustComparator where
  name : String
  ext_cmp : RustComparatorFn
  can_different_bytes_be_equal : Bool

/-- `RustComparator::Compare`: `return ext_cmp(convert_slice_back(a),
convert_slice_back(b));` — the `int8_t` result is converted to `int`, which
preserves its value and sign. -/
def RustComparator.Compare (c : RustComparator) (a b : Bytes) : Int :=
  c.ext_cmp (convert_slice_back a) (convert_slice_back b)

/-- `RustComparator::Name`. -/
def RustComparator.Name (c : RustComparator) : String := c.name

/-- `RustComparator::CanKeysWithDifferentByteContentsBeEqual`. -/
def RustComparator.CanKeysWithDifferentByteContentsBeEqual
    (c : RustComparator) : Bool := c.can_different_bytes_be_equal

/-- `RustComparator::FindShortestSeparator(string *, const Slice &)`: the body
is empty, so the output string argument is returned unchanged. -/
def RustComparator.FindShortestSeparator (_c : RustComparator) (s : String)
    (_limit : Bytes) : String := s

/-- `RustComparator::FindShortSuccessor(string *)`: the body is empty, so the
string argument is returned unchanged. -/
def RustComparator.FindShortSuccessor (_c : RustComparator) (key : String) :
    String := key

/-- Recognises `db->Write` commit calls. -/
def EngineCall.isDbWrite : EngineCall → Bool
  | .dbWrite .. => true
  | _ => false

/-- The engine calls named by the status-routing policy (`GetOptions` returns
an options record, not a status, and is not among them). -/
def listedEngineCall : EngineCall → Bool
  | .getOptions .. => false
  | _ => true

/-- Every status-returning engine call in the trace has its result passed to
`write_status` exactly once. -/
def RoutedExactlyOnce {α : Type} (t : OpTrace α) : Prop :=
  ∀ e ∈ t.events, listedEngineCall e.call = true → e.routedWrites = 1

/-- Every engine call's result is passed to `write_status` at most once, and
the final out-parameter status is the `write_status` translation of exactly
one engine call's result. -/
def RoutedAtMostOnceFinal {α : Type} (t : OpTrace α) : Prop :=
  (∀ e ∈ t.events, e.routedWrites ≤ 1) ∧
  (∃ e ∈ t.events, e.routedWrites = 1 ∧
     ∃ s, e.result = some s ∧ t.outStatus = write_status s)

/-- Claim C4: for every comparator instance, `FindShortestSeparator` leaves
its output string argument unchanged and `FindShortSuccessor` leaves its
string argument unchanged, regardless of the
`can_different_bytes_be_equal` flag. -/
theorem c4_separator_successor_noops (c : RustComparator) (s : String)
    (limit : Bytes) (key : String) :
    c.FindShortestSeparator s limit = s ∧ c.FindShortSuccessor key = key :=
  ⟨rfl, rfl⟩

/-- Claim C5: `Compare(a, b)` returns exactly the signed-byte result of the
stored callback applied to the two views converted back to host byte views,
which reference the same bytes; no transformation of sign or value is
applied. -/
theorem c5_compare_delegates (c : RustComparator) (a b : Bytes) :
    c.Compare a b = c.ext_cmp (convert_slice_back a) (convert_slice_back b) ∧
    convert_slice_back a = a ∧ convert_slice_back b = b :=
  ⟨rfl, rfl, rfl⟩

/-- Claim C8: destruction of a snapshot handle issues exactly one release
call, for the stored snapshot reference, through the stored back-reference to
the database that created it. -/
theorem c8_snapshot_release_once (sb : SnapshotBridge) :
    (SnapshotBridge.destructor sb).length = 1 ∧
    SnapshotBridge.destructor sb = [⟨sb.db, sb.snapshot⟩] :=
  ⟨rfl, rfl⟩

/-- Claim C2: for every path and in-range `cf_index`, `ingest_sst` makes a
single ingestion call on the base database for that column family, passing
the path as a moved (consumed, not copied) string and default ingestion
options, and the out status is the translation of the engine's result. -/
theorem c2_ingest_sst_moved_path_default_opts (b : RocksDbBridge)
    (path : String) (idx : Nat) (res : Status)
    (h : idx < b.cf_handles.length) :
    b.ingest_sst path idx res = some
      { events := [⟨.ingestExternalFile .baseDb b.cf_handles[idx]
                     [⟨path, true⟩] IngestExternalFileOptions.default,
                    some res, 1⟩]
        outStatus := write_status res
        ret := () } := by
  unfold RocksDbBridge.ingest_sst
  rw [List.getElem?_eq_getElem h]

/-- Witness for C2 at a concrete bridge with one column family. -/
theorem c2_ingest_sst_moved_path_default_opts_witness :
    RocksDbBridge.ingest_sst ⟨[7], "db", false⟩ "f.sst" 0 ⟨.ok, ""⟩ = some
      { events := [⟨.ingestExternalFile .baseDb 7 [⟨"f.sst", true⟩]
                     IngestExternalFileOptions.default, some ⟨.ok, ""⟩, 1⟩]
        outStatus := write_status ⟨.ok, ""⟩
        ret := () } := by
  have h := c2_ingest_sst_moved_path_default_opts ⟨[7], "db", false⟩ "f.sst" 0
    ⟨.ok, ""⟩ (by decide)
  simpa using h

/-- Claim C3: for every pair of byte strings and in-range `cf_index`, when the
batch construction succeeds `del_range` builds a batch holding exactly one
delete-range mutation over `[start, stop)` on that column family and commits
it with `skip_concurrency_control` and `skip_duplicate_key_check` both set. -/
theorem c3_del_range_single_mutation_skips_checks (b : RocksDbBridge)
    (start stop : Bytes) (idx : Nat) (r1 r2 : Status)
    (h : idx < b.cf_handles.length) (hok : r1.isOk = true) :
    b.del_range start stop idx r1 r2 = some
      { events := [⟨.batchDeleteRange b.cf_handles[idx] start stop,
                    some r1, 0⟩,
                   ⟨.dbWrite .txnDb WriteOptions.default
                      { skip_concurrency_control := true
                        skip_duplicate_key_check := true }
                      [.deleteRange b.cf_handles[idx] start stop],
                    some r2, 1⟩]
        outStatus := write_status r2
        ret := () } := by
  unfold RocksDbBridge.del_range
  rw [List.getElem?_eq_getElem h]
  simp [hok, convert_slice]

/-- Witness for C3 at a concrete bridge, range and engine results. -/
theorem c3_del_range_single_mutation_skips_checks_witness :
    RocksDbBridge.del_range ⟨[7], "db", false⟩ [1] [2] 0 ⟨.ok, ""⟩ ⟨.ok, ""⟩ =
      some
        { events := [⟨.batchDeleteRange 7 [1] [2], some ⟨.ok, ""⟩, 0⟩,
                     ⟨.dbWrite .txnDb WriteOptions.default
                        { skip_concurrency_control := true
                          skip_duplicate_key_check := true }
                        [.deleteRange 7 [1] [2]], some ⟨.ok, ""⟩, 1⟩]
          outStatus := write_status ⟨.ok, ""⟩
          ret := () } := by
  have h := c3_del_range_single_mutation_skips_checks ⟨[7], "db", false⟩
    [1] [2] 0 ⟨.ok, ""⟩ ⟨.ok, ""⟩ (by decide) (by decide)
  simpa using h

/-- Claim C9: if the delete-range batch construction fails, `del_range`
writes that failure status to the out-parameter and returns; its trace holds
no `db->Write` commit call. -/
theorem c9_del_range_early_failure_no_write (b : RocksDbBridge)
    (start stop : Bytes) (idx : Nat) (r1 r2 : Status)
    (h : idx < b.cf_handles.length) (hfail : r1.isOk = false) :
    b.del_range start stop idx r1 r2 = some
      { events := [⟨.batchDeleteRange b.cf_handles[idx] start stop,
                    some r1, 1⟩]
        outStatus := write_status r1
        ret := () } ∧
    ∀ e ∈ [(⟨.batchDeleteRange b.cf_handles[idx] start stop, some r1, 1⟩ :
        EngineEvent)], e.call.isDbWrite = false := by
  constructor
  · unfold RocksDbBridge.del_range
    rw [List.getElem?_eq_getElem h]
    simp [hfail, convert_slice]
  · intro e he
    simp at he
    subst he
    rfl

/-- Witness for C9 at a concrete bridge with a failing batch construction. -/
theorem c9_del_range_early_failure_no_write_witness :
    RocksDbBridge.del_range ⟨[7], "db", false⟩ [1] [2] 0
        ⟨.invalidArgument, "bad"⟩ ⟨.ok, ""⟩ = some
      { events := [⟨.batchDeleteRange 7 [1] [2],
                    some ⟨.invalidArgument, "bad"⟩, 1⟩]
        outStatus := write_status ⟨.invalidArgument, "bad"⟩
        ret := () } ∧
    ∀ e ∈ [(⟨.batchDeleteRange 7 [1] [2],
        some ⟨.invalidArgument, "bad"⟩, 1⟩ : EngineEvent)],
      e.call.isDbWrite = false := by
  have h := c9_del_range_early_failure_no_write ⟨[7], "db", false⟩ [1] [2] 0
    ⟨.invalidArgument, "bad"⟩ ⟨.ok, ""⟩ (by decide) (by decide)
  simpa using h

/-- Claim C7: for every path and in-range `cf_index`, `get_sst_writer`
fetches the live options for that column family from the base database,
constructs the bulk writer from those options, opens it at the given path,
and the out status is the translation of the open call's result. -/
theorem c7_get_sst_writer_live_options_open (b : RocksDbBridge)
    (path : String) (idx : Nat) (getOpts : ColumnFamilyHandle → Options)
    (openResult : Status) (h : idx < b.cf_handles.length) :
    b.get_sst_writer path idx getOpts openResult = some
      { events := [⟨.getOptions .baseDb b.cf_handles[idx], none, 0⟩,
                   ⟨.sstOpen path, some openResult, 1⟩]
        outStatus := write_status openResult
        ret := ⟨EnvOptions.default, getOpts b.cf_handles[idx]⟩ } := by
  unfold RocksDbBridge.get_sst_writer
  rw [List.getElem?_eq_getElem h]

/-- Witness for C7 at a concrete bridge and options oracle. -/
theorem c7_get_sst_writer_live_options_open_witness :
    RocksDbBridge.get_sst_writer ⟨[7], "db", false⟩ "f.sst" 0
        (fun cf => ⟨cf + 1⟩) ⟨.ok, ""⟩ = some
      { events := [⟨.getOptions .baseDb 7, none, 0⟩,
                   ⟨.sstOpen "f.sst", some ⟨.ok, ""⟩, 1⟩]
        outStatus := write_status ⟨.ok, ""⟩
        ret := ⟨EnvOptions.default, ⟨8⟩⟩ } := by
  have h := c7_get_sst_writer_live_options_open ⟨[7], "db", false⟩ "f.sst" 0
    (fun cf => ⟨cf + 1⟩) ⟨.ok, ""⟩ (by decide)
  simpa using h

/-- Claim C10: even when the open call fails, `get_sst_writer` still returns
the constructed (non-null) bulk writer; the failure is visible only in the
status out-parameter. -/
theorem c10_get_sst_writer_returns_writer_on_open_failure (b : RocksDbBridge)
    (path : String) (idx : Nat) (getOpts : ColumnFamilyHandle → Options)
    (openResult : Status) (h : idx < b.cf_handles.length)
    (hfail : openResult.isOk = false) :
    ∃ t, b.get_sst_writer path idx getOpts openResult = some t ∧
      t.ret = ⟨EnvOptions.default, getOpts b.cf_handles[idx]⟩ ∧
      t.outStatus = write_status openResult := by
  refine ⟨{ events := [⟨.getOptions .baseDb b.cf_handles[idx], none, 0⟩,
                       ⟨.sstOpen path, some openResult, 1⟩]
            outStatus := write_status openResult
            ret := ⟨EnvOptions.default, getOpts b.cf_handles[idx]⟩ },
    ?_, rfl, rfl⟩
  unfold RocksDbBridge.get_sst_writer
  rw [List.getElem?_eq_getElem h]

/-- Witness for C10 at a concrete bridge with a failing open. -/
theorem c10_get_sst_writer_returns_writer_on_open_failure_witness :
    ∃ t, RocksDbBridge.get_sst_writer ⟨[7], "db", false⟩ "f.sst" 0
        (fun cf => ⟨cf + 1⟩) ⟨.ioError, "open failed"⟩ = some t ∧
      t.ret = ⟨EnvOptions.default, ⟨8⟩⟩ ∧
      t.outStatus = write_status ⟨.ioError, "open failed"⟩ := by
  have h := c10_get_sst_writer_returns_writer_on_open_failure
    ⟨[7], "db", false⟩ "f.sst" 0 (fun cf => ⟨cf + 1⟩)
    ⟨.ioError, "open failed"⟩ (by decide) (by decide)
  simpa using h

/-- Claim C1 counterexample: on a bridge with an empty column-family handle
vector, index 0 is out of range, yet every one of the four operations performs
the unchecked out-of-bounds handle access (modelled as `none`); in particular
`get_sst_writer` never produces an "invalid argument" status. -/
theorem c1_no_bounds_check_counterexample :
    RocksDbBridge.get_sst_writer ⟨[], "db", false⟩ "f.sst" 0
      (fun cf => ⟨cf⟩) ⟨.ok, ""⟩ = none ∧
    RocksDbBridge.ingest_sst ⟨[], "db", false⟩ "f.sst" 0 ⟨.ok, ""⟩ = none ∧
    RocksDbBridge.del_range ⟨[], "db", false⟩ [1] [2] 0 ⟨.ok, ""⟩ ⟨.ok, ""⟩ =
      none ∧
    RocksDbBridge.compact_range ⟨[], "db", false⟩ [1] [2] 0 ⟨.ok, ""⟩ = none ∧
    ¬ ∃ t, RocksDbBridge.get_sst_writer ⟨[], "db", false⟩ "f.sst" 0
        (fun cf => ⟨cf⟩) ⟨.ok, ""⟩ = some t ∧
      t.outStatus.code = StatusCode.invalidArgument := by
  refine ⟨rfl, rfl, rfl, rfl, ?_⟩
  rintro ⟨t, ht, -⟩
  simp [RocksDbBridge.get_sst_writer] at ht

/-- Claim C1 amended: none of the four operations bounds-checks `cf_index`;
for every out-of-range index each of them performs the unchecked
out-of-bounds access on the column-family handle vector (modelled as `none`),
rather than failing fast with an "invalid argument" status. -/
theorem c1_out_of_range_unchecked_access (b : RocksDbBridge) (idx : Nat)
    (h : b.cf_handles.length ≤ idx) (path : String)
    (getOpts : ColumnFamilyHandle → Options) (r1 r2 : Status)
    (start stop : Bytes) :
    b.get_sst_writer path idx getOpts r1 = none ∧
    b.ingest_sst path idx r1 = none ∧
    b.del_range start stop idx r1 r2 = none ∧
    b.compact_range start stop idx r1 = none := by
  have hnone : b.cf_handles[idx]? = none := List.getElem?_eq_none h
  refine ⟨?_, ?_, ?_, ?_⟩ <;>
    simp [RocksDbBridge.get_sst_writer, RocksDbBridge.ingest_sst,
      RocksDbBridge.del_range, RocksDbBridge.compact_range, hnone]

/-- Witness for the amended C1 at a concrete bridge with one column family
and index 1 out of range. -/
theorem c1_out_of_range_unchecked_access_witness :
    RocksDbBridge.get_sst_writer ⟨[7], "db", false⟩ "f.sst" 1
      (fun cf => ⟨cf⟩) ⟨.ok, ""⟩ = none ∧
    RocksDbBridge.ingest_sst ⟨[7], "db", false⟩ "f.sst" 1 ⟨.ok, ""⟩ = none ∧
    RocksDbBridge.del_range ⟨[7], "db", false⟩ [1] [2] 1 ⟨.ok, ""⟩ ⟨.ok, ""⟩ =
      none ∧
    RocksDbBridge.compact_range ⟨[7], "db", false⟩ [1] [2] 1 ⟨.ok, ""⟩ =
      none := by
  have h := c1_out_of_range_unchecked_access ⟨[7], "db", false⟩ 1 (by decide)
    "f.sst" (fun cf => ⟨cf⟩) ⟨.ok, ""⟩ ⟨.ok, ""⟩ [1] [2]
  simpa using h

/-- Claim C6 counterexample: on `del_range`'s success path the delete-range
batch-construction call's ok result is never passed to `write_status`
(routed zero times), so not every engine call is routed exactly once. -/
theorem c6_exactly_once_counterexample :
    RocksDbBridge.del_range ⟨[7], "db", false⟩ [1] [2] 0 ⟨.ok, ""⟩ ⟨.ok, ""⟩ =
      some
        { events := [⟨.batchDeleteRange 7 [1] [2], some ⟨.ok, ""⟩, 0⟩,
                     ⟨.dbWrite .txnDb WriteOptions.default
                        { skip_concurrency_control := true
                          skip_duplicate_key_check := true }
                        [.deleteRange 7 [1] [2]], some ⟨.ok, ""⟩, 1⟩]
          outStatus := ⟨.ok, ""⟩
          ret := () } ∧
    ¬ RoutedExactlyOnce
        { events := [⟨.batchDeleteRange 7 [1] [2], some ⟨.ok, ""⟩, 0⟩,
                     ⟨.dbWrite .txnDb WriteOptions.default
                        { skip_concurrency_control := true
                          skip_duplicate_key_check := true }
                        [.deleteRange 7 [1] [2]], some ⟨.ok, ""⟩, 1⟩]
          outStatus := ⟨.ok, ""⟩
          ret := () } := by
  constructor
  · rfl
  · intro hall
    have h0 := hall ⟨.batchDeleteRange 7 [1] [2], some ⟨.ok, ""⟩, 0⟩
      (by simp) rfl
    cases h0

/-- Claim C6 amended: in every bridge operation each engine call's result is
passed to `write_status` at most once, and the caller-visible out status is
the `write_status` translation of exactly one engine call's result; on
`del_range`'s success path the construction call's ok result is consumed by
the ok-check and only the commit's result is routed. -/
theorem c6_status_routing_at_most_once_final :
    (∀ (w : SstFileWriterBridge) (key val : Bytes) (res : Status),
        RoutedAtMostOnceFinal (w.put key val res)) ∧
    (∀ (w : SstFileWriterBridge) (res : Status),
        RoutedAtMostOnceFinal (w.finish res)) ∧
    (∀ (b : RocksDbBridge) (path : String) (idx : Nat)
        (getOpts : ColumnFamilyHandle → Options) (res : Status)
        (t : OpTrace SstFileWriterBridge),
        b.get_sst_writer path idx getOpts res = some t →
          RoutedAtMostOnceFinal t) ∧
    (∀ (b : RocksDbBridge) (path : String) (idx : Nat) (res : Status)
        (t : OpTrace Unit),
        b.ingest_sst path idx res = some t → RoutedAtMostOnceFinal t) ∧
    (∀ (b : RocksDbBridge) (start stop : Bytes) (idx : Nat) (r1 r2 : Status)
        (t : OpTrace Unit),
        b.del_range start stop idx r1 r2 = some t →
          RoutedAtMostOnceFinal t) ∧
    (∀ (b : RocksDbBridge) (start stop : Bytes) (idx : Nat) (res : Status)
        (t : OpTrace Unit),
        b.compact_range start stop idx res = some t →
          RoutedAtMostOnceFinal t) := by
  refine ⟨?_, ?_, ?_, ?_, ?_, ?_⟩
  · intro w key val res
    refine ⟨?_, ⟨.sstPut (convert_slice key) (convert_slice val), some res, 1⟩,
      ?_, rfl, res, rfl, rfl⟩
    · intro e he
      simp [SstFileWriterBridge.put] at he
      subst he; exact Nat.le_refl 1
    · simp [SstFileWriterBridge.put]
  · intro w res
    refine ⟨?_, ⟨.sstFinish, some res, 1⟩, ?_, rfl, res, rfl, rfl⟩
    · intro e he
      simp [SstFileWriterBridge.finish] at he
      subst he; exact Nat.le_refl 1
    · simp [SstFileWriterBridge.finish]
  · intro b path idx getOpts res t ht
    unfold RocksDbBridge.get_sst_writer at ht
    cases hcf : b.cf_handles[idx]? with
    | none => rw [hcf] at ht; cases ht
    | some cf =>
      rw [hcf] at ht
      injection ht with ht
      subst ht
      refine ⟨?_, ⟨.sstOpen path, some res, 1⟩, ?_, rfl, res, rfl, rfl⟩
      · intro e he
        simp at he
        rcases he with rfl | rfl <;> simp
      · simp
  · intro b path idx res t ht
    unfold RocksDbBridge.ingest_sst at ht
    cases hcf : b.cf_handles[idx]? with
    | none => rw [hcf] at ht; cases ht
    | some cf =>
      rw [hcf] at ht
      injection ht with ht
      subst ht
      refine ⟨?_, ⟨.ingestExternalFile .baseDb cf [⟨path, true⟩]
        IngestExternalFileOptions.default, some res, 1⟩, ?_, rfl, res, rfl, rfl⟩
      · intro e he
        simp at he
        subst he; exact Nat.le_refl 1
      · simp
  · intro b start stop idx r1 r2 t ht
    unfold RocksDbBridge.del_range at ht
    cases hcf : b.cf_handles[idx]? with
    | none => rw [hcf] at ht; cases ht
    | some cf =>
      rw [hcf] at ht
      by_cases hok : r1.isOk
      all_goals simp only [hok, Bool.not_true, Bool.not_false, if_true,
        if_false, Bool.false_eq_true, ite_true, ite_false] at ht
      · injection ht with ht
        subst ht
        refine ⟨?_, ⟨.dbWrite .txnDb WriteOptions.default
          { skip_concurrency_control := true
            skip_duplicate_key_check := true }
          [.deleteRange cf (convert_slice start) (convert_slice stop)],
          some r2, 1⟩, ?_, rfl, r2, rfl, rfl⟩
        · intro e he
          simp at he
          rcases he with rfl | rfl <;> simp
        · simp
      · injection ht with ht
        subst ht
        refine ⟨?_, ⟨.batchDeleteRange cf (convert_slice start)
          (convert_slice stop), some r1, 1⟩, ?_, rfl, r1, rfl, rfl⟩
        · intro e he
          simp at he
          subst he; exact Nat.le_refl 1
        · simp
  · intro b start stop idx res t ht
    unfold RocksDbBridge.compact_range at ht
    cases hcf : b.cf_handles[idx]? with
    | none => rw [hcf] at ht; cases ht
    | some cf =>
      rw [hcf] at ht
      injection ht with ht
      subst ht
      refine ⟨?_, ⟨.compactRange .txnDb CompactRangeOptions.default cf
        (convert_slice start) (convert_slice stop), some res, 1⟩,
        ?_, rfl, res, rfl, rfl⟩
      · intro e he
        simp at he
        subst he; exact Nat.le_refl 1
      · simp

/-- Witness for the amended C6: the routing property instantiated at concrete
traces of all six operations. -/
theorem c6_status_routing_at_most_once_final_witness :
    RoutedAtMostOnceFinal (SstFileWriterBridge.put ⟨EnvOptions.default, ⟨1⟩⟩
      [1] [2] ⟨.ok, ""⟩) ∧
    RoutedAtMostOnceFinal (SstFileWriterBridge.finish
      ⟨EnvOptions.default, ⟨1⟩⟩ ⟨.ok, ""⟩) ∧
    RoutedAtMostOnceFinal
      ({ events := [⟨.getOptions .baseDb 7, none, 0⟩,
                    ⟨.sstOpen "f.sst", some ⟨.ok, ""⟩, 1⟩]
         outStatus := ⟨.ok, ""⟩
         ret := ⟨EnvOptions.default, ⟨8⟩⟩ } : OpTrace SstFileWriterBridge) ∧
    RoutedAtMostOnceFinal
      ({ events := [⟨.ingestExternalFile .baseDb 7 [⟨"f.sst", true⟩]
                      IngestExternalFileOptions.default, some ⟨.ok, ""⟩, 1⟩]
         outStatus := ⟨.ok, ""⟩
         ret := () } : OpTrace Unit) ∧
    RoutedAtMostOnceFinal
      ({ events := [⟨.batchDeleteRange 7 [1] [2], some ⟨.ok, ""⟩, 0⟩,
                    ⟨.dbWrite .txnDb WriteOptions.default
                       { skip_concurrency_control := true
                         skip_duplicate_key_check := true }
                       [.deleteRange 7 [1] [2]], some ⟨.ok, ""⟩, 1⟩]
         outStatus := ⟨.ok, ""⟩
         ret := () } : OpTrace Unit) ∧
    RoutedAtMostOnceFinal
      ({ events := [⟨.compactRange .txnDb CompactRangeOptions.default 7
                      [1] [2], some ⟨.ok, ""⟩, 1⟩]
         outStatus := ⟨.ok, ""⟩
         ret := () } : OpTrace Unit) :=
  ⟨c6_status_routing_at_most_once_final.1 ⟨EnvOptions.default, ⟨1⟩⟩ [1] [2]
     ⟨.ok, ""⟩,
   c6_status_routing_at_most_once_final.2.1 ⟨EnvOptions.default, ⟨1⟩⟩
     ⟨.ok, ""⟩,
   c6_status_routing_at_most_once_final.2.2.1 ⟨[7], "db", false⟩ "f.sst" 0
     (fun cf => ⟨cf + 1⟩) ⟨.ok, ""⟩ _ rfl,
   c6_status_routing_at_most_once_final.2.2.2.1 ⟨[7], "db", false⟩ "f.sst" 0
     ⟨.ok, ""⟩ _ rfl,
   c6_status_routing_at_most_once_final.2.2.2.2.1 ⟨[7], "db", false⟩ [1] [2] 0
     ⟨.ok, ""⟩ ⟨.ok, ""⟩ _ rfl,
   c6_status_routing_at_most_once_final.2.2.2.2.2 ⟨[7], "db", false⟩ [1] [2] 0
     ⟨.ok, ""⟩ _ rfl⟩
